import Mathlib

/-!
A shallow embedding of `guild_manager` (src/guild_manager/cog.py), the
membership eligibility engine of the `DefaultManager` cog, together with
proofs of the behavioural properties of its decision logic.

Conventions of the embedding:
* Timestamps and durations (`datetime`, `timedelta`) are integers
  (e.g. seconds); `discord.utils.utcnow()` becomes an explicit `now`
  parameter.
* `float` ratios are embedded as rationals `ℚ`.  Every concrete ratio
  appearing below (`1/2`, `6/10`, `5/10`) is compared exactly as the
  binary floats would compare, so the verdicts agree with CPython.
* A Python exception (the only reachable one in `leave_criteria` is
  `ZeroDivisionError` from `bots / guild.member_count`) is embedded as
  the result `none`; a normal return of `b` is `some b`.
* The overridable hooks `whitelisted` and `extra_criteria` are function
  fields of the manager record (default: constantly `False`, as in the
  source).  `maybe_coroutine` is the identity in this synchronous model.
* Every hook invocation, every evaluated criterion predicate, every
  emitted warning log, and every lifecycle action is recorded in an
  `Event` trace, so that "criterion X was never evaluated" is a
  statement about the trace.
-/

/-- A guild member as seen by the cog: only its `bot` flag is read
(`sum(m.bot for m in guild.members)`). -/
structure Member where
  bot : Bool
deriving DecidableEq, Repr

/-- The fields of `discord.Guild` read by the cog: `id`, `created_at`,
`member_count` (optional) and `members`.  `name` is only interpolated
into log messages and is omitted. -/
structure Guild where
  id : Nat
  created_at : Int
  member_count : Option Nat
  members : List Member
deriving DecidableEq, Repr

/-- The configuration and hooks of `DefaultManager` (constructor
defaults of `cog.py`): `max_guilds = 98`, every threshold `None`, and
the `whitelisted` / `extra_criteria` hooks returning `False`. -/
structure Manager where
  max_guilds : Nat := 98
  min_members : Option Nat := none
  max_members : Option Nat := none
  max_bot_ratio : Option ℚ := none
  min_guild_age : Option Int := none
  whitelisted : Guild → Bool := fun _ => false
  extra_criteria : Guild → Bool := fun _ => false

/-- Observable events of one evaluation/orchestration run.  The
`*Check` events record that the corresponding predicate was actually
evaluated (the comparison in the source was reached); `warn` records a
`_log.warning` about an unavailable `member_count`. -/
inductive Event where
  | whitelistCheck (gid : Nat)
  | minAgeCheck (gid : Nat)
  | minMembersCheck (gid : Nat)
  | maxMembersCheck (gid : Nat)
  | botRatioCheck (gid : Nat)
  | extraCriteriaCheck (gid : Nat)
  | warn (gid : Nat)
  | onGuildLimitReached (gid : Nat)
  | beforeLeave (gid : Nat) (new : Bool)
  | leave (gid : Nat)
  | afterLeave (gid : Nat) (new : Bool)
deriving DecidableEq, Repr

/-- `bots = sum(m.bot for m in guild.members)`. -/
def bots (g : Guild) : Nat := g.members.countP (fun m => m.bot)

/-- Final fall-through of `leave_criteria`:
`return await discord.utils.maybe_coroutine(self.extra_criteria, guild)`. -/
def step_extra_criteria (M : Manager) (g : Guild) : Option Bool × List Event :=
  (some (M.extra_criteria g), [Event.extraCriteriaCheck g.id])

/-- The `max_bot_ratio` block of `leave_criteria`.  When
`member_count` is `None` a warning is logged and the criterion is
skipped; otherwise `bots / guild.member_count > self.max_bot_ratio`
is evaluated — Python raises `ZeroDivisionError` (embedded as `none`)
when `member_count` is `0`. -/
def step_bot_ratio (M : Manager) (g : Guild) : Option Bool × List Event :=
  match M.max_bot_ratio with
  | none => step_extra_criteria M g
  | some r =>
      match g.member_count with
      | none =>
          let next := step_extra_criteria M g
          (next.1, Event.warn g.id :: next.2)
      | some n =>
          if n = 0 then (none, [Event.botRatioCheck g.id])
          else if (bots g : ℚ) / (n : ℚ) > r then
            (some true, [Event.botRatioCheck g.id])
          else
            let next := step_extra_criteria M g
            (next.1, Event.botRatioCheck g.id :: next.2)

/-- The `max_members` block of `leave_criteria`: warn and skip on
unknown count, otherwise reject when `guild.member_count > self.max_members`. -/
def step_max_members (M : Manager) (g : Guild) : Option Bool × List Event :=
  match M.max_members with
  | none => step_bot_ratio M g
  | some hi =>
      match g.member_count with
      | none =>
          let next := step_bot_ratio M g
          (next.1, Event.warn g.id :: next.2)
      | some n =>
          if n > hi then (some true, [Event.maxMembersCheck g.id])
          else
            let next := step_bot_ratio M g
            (next.1, Event.maxMembersCheck g.id :: next.2)

/-- The `min_members` block of `leave_criteria`: warn and skip on
unknown count, otherwise reject when `guild.member_count < self.min_members`. -/
def step_min_members (M : Manager) (g : Guild) : Option Bool × List Event :=
  match M.min_members with
  | none => step_max_members M g
  | some lo =>
      match g.member_count with
      | none =>
          let next := step_max_members M g
          (next.1, Event.warn g.id :: next.2)
      | some n =>
          if n < lo then (some true, [Event.minMembersCheck g.id])
          else
            let next := step_max_members M g
            (next.1, Event.minMembersCheck g.id :: next.2)

/-- The `min_guild_age` condition of `leave_criteria`, exactly as in the
source: `if self.min_guild_age is not None and
discord.utils.utcnow() - guild.created_at > self.min_guild_age: return True`. -/
def step_min_guild_age (M : Manager) (now : Int) (g : Guild) : Option Bool × List Event :=
  match M.min_guild_age with
  | none => step_min_members M g
  | some age =>
      if now - g.created_at > age then (some true, [Event.minAgeCheck g.id])
      else
        let next := step_min_members M g
        (next.1, Event.minAgeCheck g.id :: next.2)

/-- `DefaultManager.leave_criteria(guild)`: whitelist first (returning
`False` immediately when whitelisted), then min guild age, min members,
max members, bot ratio, and finally `extra_criteria`.  The first
component is the returned boolean (`none` = an exception escaped), the
second the event trace. -/
def leave_criteria (M : Manager) (now : Int) (g : Guild) : Option Bool × List Event :=
  if M.whitelisted g then (some false, [Event.whitelistCheck g.id])
  else
    let next := step_min_guild_age M now g
    (next.1, Event.whitelistCheck g.id :: next.2)

/-- One pass of the `_check_guilds` sweep loop over `self.bot.guilds`.
`leaveFails` tells which guilds' `guild.leave()` call raises.  The
result is the trace of the pass and whether it ran to completion
(`false` = an exception escaped and aborted the `for` loop; there is no
`try`/`except` around the loop body in the source). -/
def check_guilds (M : Manager) (now : Int) (leaveFails : Nat → Bool) :
    List Guild → List Event × Bool
  | [] => ([], true)
  | g :: rest =>
      let r := leave_criteria M now g
      match r.1 with
      | none => (r.2, false)
      | some false =>
          let next := check_guilds M now leaveFails rest
          (r.2 ++ next.1, next.2)
      | some true =>
          if leaveFails g.id then
            (r.2 ++ [Event.beforeLeave g.id false], false)
          else
            let next := check_guilds M now leaveFails rest
            (r.2 ++ (Event.beforeLeave g.id false :: Event.leave g.id ::
              Event.afterLeave g.id false :: next.1), next.2)

/-- The `_check_guilds` loop with the manager state threaded through
explicitly, recording for each guild the verdict of `leave_criteria`.
The loop body of the source reads `self` but never assigns to it; the
returned manager is the state after the pass. -/
def sweep_run (now : Int) : Manager → List Guild → Manager × List (Nat × Option Bool)
  | M, [] => (M, [])
  | M, g :: rest =>
      let d := (leave_criteria M now g).1
      let next := sweep_run now M rest
      (next.1, (g.id, d) :: next.2)

/-- `DefaultManager._on_guild_join(guild)`: if
`len(self.bot.guilds) >= self.max_guilds` (the list already contains the
newly joined guild), call `on_guild_limit_reached`, leave, and
`after_leave` with the default `new=True`; otherwise evaluate
`leave_criteria` and on `True` do `before_leave` / leave / `after_leave`
(all with `new=True`). -/
def on_guild_join (M : Manager) (now : Int) (guilds : List Guild) (g : Guild) : List Event :=
  if guilds.length ≥ M.max_guilds then
    [Event.onGuildLimitReached g.id, Event.leave g.id, Event.afterLeave g.id true]
  else
    let r := leave_criteria M now g
    match r.1 with
    | some true =>
        r.2 ++ [Event.beforeLeave g.id true, Event.leave g.id, Event.afterLeave g.id true]
    | _ => r.2

/-! ### Helper lemmas: totality of the criteria chain -/

theorem step_extra_criteria_isSome (M : Manager) (g : Guild) :
    (step_extra_criteria M g).1.isSome = true := rfl

theorem step_bot_ratio_isSome (M : Manager) (g : Guild)
    (h : M.max_bot_ratio = none ∨ g.member_count ≠ some 0) :
    (step_bot_ratio M g).1.isSome = true := by
  cases hr : M.max_bot_ratio with
  | none => simp [step_bot_ratio, hr, step_extra_criteria]
  | some r =>
      cases hc : g.member_count with
      | none => simp [step_bot_ratio, hr, hc, step_extra_criteria]
      | some n =>
          have hn : ¬ n = 0 := by
            rcases h with h | h
            · rw [hr] at h; cases h
            · intro hn0; rw [hc, hn0] at h; exact h rfl
          simp only [step_bot_ratio, hr, hc, if_neg hn]
          split <;> simp [step_extra_criteria]

theorem step_max_members_isSome (M : Manager) (g : Guild)
    (h : M.max_bot_ratio = none ∨ g.member_count ≠ some 0) :
    (step_max_members M g).1.isSome = true := by
  cases hm : M.max_members with
  | none => simpa [step_max_members, hm] using step_bot_ratio_isSome M g h
  | some hi =>
      cases hc : g.member_count with
      | none => simpa [step_max_members, hm, hc] using step_bot_ratio_isSome M g h
      | some n =>
          simp only [step_max_members, hm, hc]
          split
          · rfl
          · simpa using step_bot_ratio_isSome M g h

theorem step_min_members_isSome (M : Manager) (g : Guild)
    (h : M.max_bot_ratio = none ∨ g.member_count ≠ some 0) :
    (step_min_members M g).1.isSome = true := by
  cases hm : M.min_members with
  | none => simpa [step_min_members, hm] using step_max_members_isSome M g h
  | some lo =>
      cases hc : g.member_count with
      | none => simpa [step_min_members, hm, hc] using step_max_members_isSome M g h
      | some n =>
          simp only [step_min_members, hm, hc]
          split
          · rfl
          · simpa using step_max_members_isSome M g h

theorem step_min_guild_age_isSome (M : Manager) (now : Int) (g : Guild)
    (h : M.max_bot_ratio = none ∨ g.member_count ≠ some 0) :
    (step_min_guild_age M now g).1.isSome = true := by
  cases hm : M.min_guild_age with
  | none => simpa [step_min_guild_age, hm] using step_min_members_isSome M g h
  | some age =>
      simp only [step_min_guild_age, hm]
      split
      · rfl
      · simpa using step_min_members_isSome M g h

/-! ### C1 -/

/-- C1: whenever the `whitelisted` hook returns `True` for a guild,
`leave_criteria` returns `False`, no matter how `min_members`,
`max_members`, `max_bot_ratio`, `min_guild_age` or `extra_criteria` are
configured — the whitelist check is decided first and overrides every
other criterion. -/
theorem whitelist_overrides (M : Manager) (now : Int) (g : Guild)
    (h : M.whitelisted g = true) :
    (leave_criteria M now g).1 = some false := by
  simp [leave_criteria, h]

/-- A manager whose every threshold is configured to reject everything,
but whose `whitelisted` hook returns `True`. -/
def Mwl : Manager :=
  { min_members := some 1000
    max_members := some 0
    max_bot_ratio := some 0
    min_guild_age := some (-1)
    whitelisted := fun _ => true
    extra_criteria := fun _ => true }

def gwl : Guild :=
  { id := 1
    created_at := 0
    member_count := some 1
    members := [Member.mk true] }

theorem whitelist_overrides_witness :
    Mwl.whitelisted gwl = true ∧ (leave_criteria Mwl 0 gwl).1 = some false :=
  ⟨rfl, whitelist_overrides Mwl 0 gwl rfl⟩

/-! ### C2 -/

def M2age : Manager := { min_guild_age := some 100 }

/-- A guild created 10 time units before `now = 1000`: younger than the
configured `min_guild_age = 100`. -/
def g2young : Guild :=
  { id := 5
    created_at := 990
    member_count := some 3
    members := [] }

/-- A guild created 1000 time units before `now = 1000`: older than the
configured `min_guild_age = 100`. -/
def g2old : Guild :=
  { id := 6
    created_at := 0
    member_count := some 3
    members := [] }

/-- C2: the source condition
`utcnow() - guild.created_at > self.min_guild_age` rejects guilds
OLDER than `min_guild_age`, the opposite of both the claim and the
source's own docstring ("If a guild was created more recently than
this, the bot will leave that guild").  At `now = 1000` with
`min_guild_age = 100`, the guild of age 10 (younger than the
threshold) is kept and the guild of age 1000 (older) is rejected. -/
theorem min_age_condition_inverted :
    (leave_criteria M2age 1000 g2young).1 = some false ∧
    (leave_criteria M2age 1000 g2old).1 = some true := by decide

/-! ### C3 -/

def Mzero : Manager := { max_bot_ratio := some (1/2) }

/-- A guild reporting a member count of `0`. -/
def gzero : Guild :=
  { id := 3
    created_at := 0
    member_count := some 0
    members := [] }

/-- C3 counterexample: with `max_bot_ratio` configured and a snapshot
whose `member_count` is `0` (whitelist and the earlier criteria not
firing), `leave_criteria` does not return a boolean: the bot-ratio
step evaluates `bots / guild.member_count` with denominator `0` and
raises `ZeroDivisionError` (embedded as `none`). -/
theorem bot_ratio_zero_count_raises :
    (leave_criteria Mzero 0 gzero).1 = none := by decide

/-- C3 (amended): `leave_criteria` completes and returns a boolean for
every snapshot and configuration, except that when `max_bot_ratio` is
configured and `member_count` is `0` the bot-ratio division can raise:
whenever `max_bot_ratio` is unset or the member count is not `0`
(in particular whenever it is absent), no criterion raises. -/
theorem leave_criteria_total_unless_zero_count (M : Manager) (now : Int) (g : Guild)
    (h : M.max_bot_ratio = none ∨ g.member_count ≠ some 0) :
    ((leave_criteria M now g).1).isSome = true := by
  unfold leave_criteria
  split
  · rfl
  · exact step_min_guild_age_isSome M now g h

/-- A fully configured manager and a snapshot with an absent member
count, on which evaluation completes. -/
def Mtot : Manager :=
  { min_members := some 10
    max_members := some 20
    max_bot_ratio := some (1/2)
    min_guild_age := some 100 }

def gtot : Guild :=
  { id := 9
    created_at := 990
    member_count := none
    members := [] }

theorem leave_criteria_total_unless_zero_count_witness :
    (Mtot.max_bot_ratio = none ∨ gtot.member_count ≠ some 0) ∧
    ((leave_criteria Mtot 1000 gtot).1).isSome = true :=
  ⟨Or.inr (by decide),
   leave_criteria_total_unless_zero_count Mtot 1000 gtot (Or.inr (by decide))⟩

/-! ### C4 -/

/-- C4: when a join event arrives and the joined-guild count (the list
already including the new guild) is at least `max_guilds`, the handler
emits exactly `on_guild_limit_reached`, the leave, and `after_leave`
with `new = true`; in particular it never invokes the whitelist hook,
`extra_criteria`, any criterion of `leave_criteria`, or `before_leave`. -/
theorem guild_limit_bypasses_criteria (M : Manager) (now : Int)
    (guilds : List Guild) (g : Guild)
    (hmem : g ∈ guilds) (hcap : guilds.length ≥ M.max_guilds) :
    on_guild_join M now guilds g =
      [Event.onGuildLimitReached g.id, Event.leave g.id, Event.afterLeave g.id true] ∧
    Event.whitelistCheck g.id ∉ on_guild_join M now guilds g ∧
    Event.extraCriteriaCheck g.id ∉ on_guild_join M now guilds g ∧
    Event.beforeLeave g.id true ∉ on_guild_join M now guilds g := by
  have h : on_guild_join M now guilds g =
      [Event.onGuildLimitReached g.id, Event.leave g.id, Event.afterLeave g.id true] := by
    simp [on_guild_join, hcap]
  refine ⟨h, ?_, ?_, ?_⟩ <;> simp [h]

def M4w : Manager := { max_guilds := 2, min_members := some 1000 }

def g4a : Guild :=
  { id := 41
    created_at := 0
    member_count := some 1
    members := [] }

def g4b : Guild :=
  { id := 42
    created_at := 0
    member_count := some 1
    members := [] }

theorem guild_limit_bypasses_criteria_witness :
    g4b ∈ [g4a, g4b] ∧ ([g4a, g4b] : List Guild).length ≥ M4w.max_guilds ∧
    on_guild_join M4w 0 [g4a, g4b] g4b =
      [Event.onGuildLimitReached g4b.id, Event.leave g4b.id, Event.afterLeave g4b.id true] :=
  ⟨by decide, by decide,
   (guild_limit_bypasses_criteria M4w 0 [g4a, g4b] g4b (by decide) (by decide)).1⟩

/-! ### C5 -/

/-- C5: fail-open on an unknown member count.  When `member_count` is
absent and the whitelist, min-age and `extra_criteria` conditions do
not reject, `leave_criteria` returns `False` no matter what
`min_members`, `max_members` and `max_bot_ratio` are configured to:
those criteria log a warning and are skipped. -/
theorem unknown_count_fail_open (M : Manager) (now : Int) (g : Guild)
    (hw : M.whitelisted g = false)
    (hage : ∀ age, M.min_guild_age = some age → now - g.created_at ≤ age)
    (hc : g.member_count = none)
    (he : M.extra_criteria g = false) :
    (leave_criteria M now g).1 = some false := by
  cases hma : M.min_guild_age with
  | none =>
      cases hmin : M.min_members <;> cases hmax : M.max_members <;>
        cases hbr : M.max_bot_ratio <;>
        simp [leave_criteria, step_min_guild_age, step_min_members, step_max_members,
          step_bot_ratio, step_extra_criteria, hw, hc, he, hma, hmin, hmax, hbr]
  | some age =>
      have hng : ¬ now - g.created_at > age := not_lt.mpr (hage age hma)
      cases hmin : M.min_members <;> cases hmax : M.max_members <;>
        cases hbr : M.max_bot_ratio <;>
        simp [leave_criteria, step_min_guild_age, step_min_members, step_max_members,
          step_bot_ratio, step_extra_criteria, hw, hc, he, hma, hng, hmin, hmax, hbr]

/-- A manager configured so that every member-count criterion would
reject any known count, evaluated on a snapshot whose count is absent. -/
def M5w : Manager :=
  { min_members := some 1000
    max_members := some 0
    max_bot_ratio := some 0
    min_guild_age := some 100 }

def g5w : Guild :=
  { id := 51
    created_at := 990
    member_count := none
    members := [Member.mk true, Member.mk true] }

theorem unknown_count_fail_open_witness :
    M5w.whitelisted g5w = false ∧ g5w.member_count = none ∧
    (leave_criteria M5w 1000 g5w).1 = some false :=
  ⟨rfl, rfl,
   unknown_count_fail_open M5w 1000 g5w rfl
     (fun age h => by injection h with h; subst h; decide) rfl rfl⟩

/-! ### C6 -/

/-- C6: for a snapshot rejected by the min-age condition (whitelist
false) that also fails min-members, the verdict `True` is produced by
the min-age branch: the trace contains no `minMembersCheck` event (the
min-members predicate is never evaluated), and the verdict is
unchanged under any replacement of the snapshot's `member_count` and of
the `min_members` setting. -/
theorem min_age_short_circuits (M : Manager) (now : Int) (g : Guild)
    (age : Int) (lo n : Nat)
    (hw0 : M.whitelisted g = false)
    (hw : ∀ mc : Option Nat, M.whitelisted { g with member_count := mc } = false)
    (hage : M.min_guild_age = some age)
    (hrej : now - g.created_at > age)
    (hmm : M.min_members = some lo)
    (hcnt : g.member_count = some n)
    (hlt : n < lo) :
    (leave_criteria M now g).1 = some true ∧
    Event.minMembersCheck g.id ∉ (leave_criteria M now g).2 ∧
    ∀ (mc : Option Nat) (mm : Option Nat),
      (leave_criteria { M with min_members := mm } now { g with member_count := mc }).1 =
        some true := by
  refine ⟨?_, ?_, ?_⟩
  · simp [leave_criteria, step_min_guild_age, hw0, hage, hrej]
  · simp [leave_criteria, step_min_guild_age, hw0, hage, hrej]
  · intro mc mm
    simp [leave_criteria, step_min_guild_age, hw mc, hage, hrej]

def M6w : Manager := { min_members := some 50, min_guild_age := some 10 }

def g6w : Guild :=
  { id := 61
    created_at := 0
    member_count := some 3
    members := [] }

theorem min_age_short_circuits_witness :
    M6w.min_guild_age = some 10 ∧ (1000 : Int) - g6w.created_at > 10 ∧
    M6w.min_members = some 50 ∧ g6w.member_count = some 3 ∧ (3 : Nat) < 50 ∧
    (leave_criteria M6w 1000 g6w).1 = some true ∧
    Event.minMembersCheck g6w.id ∉ (leave_criteria M6w 1000 g6w).2 ∧
    (leave_criteria { M6w with min_members := none } 1000
      { g6w with member_count := none }).1 = some true :=
  ⟨rfl, by decide, rfl, rfl, by decide,
   (min_age_short_circuits M6w 1000 g6w 10 50 3 rfl (fun _ => rfl) rfl (by decide)
     rfl rfl (by decide)).1,
   (min_age_short_circuits M6w 1000 g6w 10 50 3 rfl (fun _ => rfl) rfl (by decide)
     rfl rfl (by decide)).2.1,
   (min_age_short_circuits M6w 1000 g6w 10 50 3 rfl (fun _ => rfl) rfl (by decide)
     rfl rfl (by decide)).2.2 none none⟩

/-! ### C7 -/

def M7s : Manager := { min_members := some 10 }

def g71 : Guild :=
  { id := 1
    created_at := 0
    member_count := some 5
    members := [] }

def g72 : Guild :=
  { id := 2
    created_at := 0
    member_count := some 5
    members := [] }

/-- Guild 1's `guild.leave()` call raises. -/
def fails7 : Nat → Bool := fun i => i == 1

/-- C7 counterexample: both guilds meet the rejection criteria
(`member_count = 5 < min_members = 10`); the leave action for guild 1
raises, and the pass aborts (`false`): guild 2 is never evaluated (no
`whitelistCheck 2` — `leave_criteria` was not called for it) and never
left (no `leave 2`), contradicting "the sweep nevertheless continues to
evaluate and process the remaining communities". -/
theorem sweep_halts_on_leave_failure :
    (leave_criteria M7s 0 g72).1 = some true ∧
    (check_guilds M7s 0 fails7 [g71, g72]).2 = false ∧
    Event.whitelistCheck 2 ∉ (check_guilds M7s 0 fails7 [g71, g72]).1 ∧
    Event.leave 2 ∉ (check_guilds M7s 0 fails7 [g71, g72]).1 := by decide

/-- C7 (amended): there is no per-community isolation in
`_check_guilds`: if a guild meets the leave criteria and its
`guild.leave()` raises, the pass ends right after its `before_leave`,
and the guilds after it in the list are not evaluated or processed —
the result does not depend on `rest` at all. -/
theorem leave_failure_halts_sweep (M : Manager) (now : Int) (f : Nat → Bool)
    (g : Guild) (rest : List Guild)
    (h1 : (leave_criteria M now g).1 = some true) (h2 : f g.id = true) :
    check_guilds M now f (g :: rest) =
      ((leave_criteria M now g).2 ++ [Event.beforeLeave g.id false], false) := by
  simp [check_guilds, h1, h2]

theorem leave_failure_halts_sweep_witness :
    (leave_criteria M7s 0 g71).1 = some true ∧ fails7 g71.id = true ∧
    check_guilds M7s 0 fails7 [g71, g72] =
      ((leave_criteria M7s 0 g71).2 ++ [Event.beforeLeave g71.id false], false) :=
  ⟨rfl, rfl, leave_failure_halts_sweep M7s 0 fails7 g71 [g72] rfl rfl⟩

/-! ### C8 -/

def M8r : Manager := { max_bot_ratio := some (1/2) }

/-- member_count 10, 6 bot members and 4 humans. -/
def g8six : Guild :=
  { id := 8
    created_at := 0
    member_count := some 10
    members := List.replicate 6 (Member.mk true) ++ List.replicate 4 (Member.mk false) }

/-- member_count 10, 5 bot members and 5 humans. -/
def g8five : Guild :=
  { id := 8
    created_at := 0
    member_count := some 10
    members := List.replicate 5 (Member.mk true) ++ List.replicate 5 (Member.mk false) }

/-- C8: with `max_bot_ratio = 0.5` and nothing else configured, a
snapshot with `member_count = 10` and 6 bot-flagged members is rejected
(`6/10 > 1/2`), while 5 bot-flagged members are not (`5/10 = 1/2`, and
the comparison is strict).  Both `0.5` and the two quotients compare
under exact rational arithmetic the way the Python floats do. -/
theorem bot_ratio_strict_comparison :
    (leave_criteria M8r 0 g8six).1 = some true ∧
    (leave_criteria M8r 0 g8five).1 = some false := by
  constructor
  · have hb : bots g8six = 6 := rfl
    have hc : g8six.member_count = some 10 := rfl
    have hw : M8r.whitelisted g8six = false := rfl
    have hr : M8r.max_bot_ratio = some (1/2) := rfl
    have ha : M8r.min_guild_age = (none : Option Int) := rfl
    have hmin : M8r.min_members = (none : Option Nat) := rfl
    have hmax : M8r.max_members = (none : Option Nat) := rfl
    simp only [leave_criteria, step_min_guild_age, step_min_members, step_max_members,
      step_bot_ratio, step_extra_criteria, hw, hr, ha, hmin, hmax, hb, hc]
    norm_num
  · have hb : bots g8five = 5 := rfl
    have hc : g8five.member_count = some 10 := rfl
    have hw : M8r.whitelisted g8five = false := rfl
    have hr : M8r.max_bot_ratio = some (1/2) := rfl
    have ha : M8r.min_guild_age = (none : Option Int) := rfl
    have hmin : M8r.min_members = (none : Option Nat) := rfl
    have hmax : M8r.max_members = (none : Option Nat) := rfl
    have he : M8r.extra_criteria g8five = false := rfl
    simp only [leave_criteria, step_min_guild_age, step_min_members, step_max_members,
      step_bot_ratio, step_extra_criteria, hw, hr, ha, hmin, hmax, hb, hc, he]
    norm_num

/-! ### C9 -/

theorem sweep_run_state_unchanged (now : Int) (M : Manager) (gs : List Guild) :
    (sweep_run now M gs).1 = M := by
  induction gs with
  | nil => rfl
  | cons g rest ih => simpa [sweep_run] using ih

/-- C9: the sweep is deterministic and mutates no state: the manager
that comes out of a pass of `_check_guilds` is the one that went in,
and a second pass over the same guild list, from the state left by the
first, reproduces exactly the same per-guild verdicts (each verdict a
pure function of configuration, current time and snapshot). -/
theorem sweep_deterministic (now : Int) (M : Manager) (gs : List Guild) :
    (sweep_run now M gs).1 = M ∧
    sweep_run now (sweep_run now M gs).1 gs = sweep_run now M gs := by
  have h := sweep_run_state_unchanged now M gs
  exact ⟨h, by rw [h]⟩

/-! ### C10 -/

/-- C10: an unconfigured manager never leaves by criteria: with every
threshold `None` and the `whitelisted` / `extra_criteria` hooks at
their default `False`, `leave_criteria` returns `False` on every
snapshot. -/
theorem default_config_never_leaves (M : Manager) (now : Int) (g : Guild)
    (h1 : M.min_members = none) (h2 : M.max_members = none)
    (h3 : M.max_bot_ratio = none) (h4 : M.min_guild_age = none)
    (h5 : M.whitelisted g = false) (h6 : M.extra_criteria g = false) :
    (leave_criteria M now g).1 = some false := by
  simp [leave_criteria, step_min_guild_age, step_min_members, step_max_members,
    step_bot_ratio, step_extra_criteria, h1, h2, h3, h4, h5, h6]

def g10w : Guild :=
  { id := 7
    created_at := -100000
    member_count := some 0
    members := [Member.mk true, Member.mk false] }

theorem default_config_never_leaves_witness :
    ({} : Manager).min_members = none ∧ ({} : Manager).whitelisted g10w = false ∧
    (leave_criteria {} 0 g10w).1 = some false :=
  ⟨rfl, rfl, default_config_never_leaves {} 0 g10w rfl rfl rfl rfl rfl rfl⟩
